import Mathlib

/-
Verification development for the ludownloader repository.
Shallow embedding of the download engine (backend/downloader) and its
coordination layer: the per-resource downloader, the manager item wrapper,
the manager registry, the update publisher and the download observer.
Definitions are translated from the Rust sources; timestamps are modelled
as milliseconds (Nat), file contents as their byte length, and the
filesystem as a metadata oracle.
-/

namespace Ludownloader

/-- Model of uuid::Uuid: a value compared by its raw bytes
(as_bytes produces the byte list). -/
structure Uuid where
  bytes : List Nat
deriving DecidableEq, Repr

/-- Model of a filesystem path (paths enter the claims only as lookup keys
and rendered strings, so a plain string suffices; to_string_lossy on such a
path is the identity). -/
def FsPath := String
deriving instance DecidableEq, Repr for FsPath

/-- Model of the filesystem as seen by util::file_size: tokio::fs::metadata
either yields the file length (Ok) or fails (file absent or unreadable). -/
structure FileSystem where
  metadata : FsPath → Except Unit Nat

/-- Error enum of httpdownload/download/mod.rs. Wrapped foreign errors
(tokio::io::Error, reqwest::Error) are carried as their rendered strings. -/
inductive DlError
  | io (msg : String)
  | request (msg : String)
  | missingContentLength (url : String)
  | channelDrop (bytes : Nat) (url : String)
  | downloadComplete (bytes : Nat)
  | downloadNotOk (status : Nat) (body : String)
  | streamEndedBeforeCompletion (bytes : Nat)
deriving DecidableEq, Repr

/-- Rendering of DlError via its thiserror Display implementation, as used
by format in item.rs. The exact text abbreviates the source format strings;
only the mapping error-to-string matters for the claims. -/
def DlError.render : DlError → String
  | .io msg => "File IO operation failed, error: " ++ msg
  | .request msg => "Request error: " ++ msg
  | .missingContentLength url => "Content length not provided for url: " ++ url
  | .channelDrop bytes url =>
      "Prematurely dropped channel for download with url: " ++ url
        ++ ", downloaded bytes before drop: " ++ toString bytes
  | .downloadComplete bytes =>
      "Download was already finished, downloaded bytes: " ++ toString bytes
  | .downloadNotOk status body =>
      "Download req did not yield 200, instead: " ++ toString status ++ ", body: " ++ body
  | .streamEndedBeforeCompletion bytes =>
      "Download ended before completion, downloaded bytes: " ++ toString bytes

/-- UpdateType enum of httpdownload/download/mod.rs. -/
inductive UpdateType
  | complete
  | paused (bytes : Nat)
  | running (bytes_downloaded : Nat) (bytes_per_second : Nat)
  | error (e : DlError)
deriving DecidableEq, Repr

/-- Test for the Running arm, as the matches check in
observer.rs consume. -/
def UpdateType.isRunning : UpdateType → Bool
  | .running _ _ => true
  | _ => false

/-- DownloadUpdate struct of httpdownload/download/mod.rs: the unit emitted
by a running downloader, consumed by the publisher. -/
structure DownloadUpdate where
  id : Uuid
  update_type : UpdateType
deriving DecidableEq, Repr

/-- State variant shared by item.rs terminal updates, the observer map and
the api proto download_state::State. -/
inductive State
  | paused (bytesDownloaded : Nat)
  | running (bytesDownloaded : Nat) (bytesPerSecond : Nat)
  | complete
  | error (reason : String)
deriving DecidableEq, Repr

/-- HttpDownload struct of httpdownload/download/mod.rs. The client handle
and the request-shaping config (headers, timeout, chunk_size) do not enter
any claim and are omitted; all remaining fields are kept. -/
structure HttpDownload where
  url : String
  id : Uuid
  file_path : FsPath
  content_length : Nat
  supports_byte_ranges : Bool
deriving DecidableEq, Repr

/-- util::file_size: extracts the file size from a path; if the file does
not exist or the metadata read fails it returns 0. -/
def file_size (fs : FileSystem) (fpath : FsPath) : Nat :=
  match fs.metadata fpath with
  | .ok len => len
  | .error _ => 0

/-- HttpDownload::get_bytes_on_disk: file_size on the download file path. -/
def HttpDownload.get_bytes_on_disk (d : HttpDownload) (fs : FileSystem) : Nat :=
  file_size fs d.file_path

/-- DownloadMetadata message of api proto, produced by the From
implementation for a borrowed HttpDownload in download/mod.rs. -/
structure DownloadMetadata where
  uuid : List Nat
  url : String
  file_path : String
  content_length : Nat
deriving DecidableEq, Repr

/-- From implementation for a borrowed HttpDownload (download/mod.rs):
uuid is the id byte vector, url its string rendering, file_path the lossy
string rendering and content_length copied over. -/
def HttpDownload.metadata (d : HttpDownload) : DownloadMetadata :=
  { uuid := d.id.bytes
    url := d.url
    file_path := d.file_path
    content_length := d.content_length }

/-- State of the oneshot stop channel at one try_recv call inside the
streaming loop: no message yet, the stop message, or a closed channel. -/
inductive StopSignal
  | empty
  | fired
  | closed
deriving DecidableEq, Repr

/-- One iteration of the streaming loop in HttpDownload::progress, seen
from the environment: either the chunk read fails (reqwest error), the
file write fails (io error), or a chunk is written. A written chunk
carries the bytes the write call reported, the window clock value in
milliseconds observed by the emission check (the source reads the clock a
second time for the division; the two reads are identified here), and the
stop-channel state the subsequent try_recv observes. -/
inductive StreamEvent
  | readErr (msg : String)
  | writeErr (msg : String)
  | chunk (bytesWritten : Nat) (elapsedMs : Nat) (stop : StopSignal)
deriving DecidableEq, Repr

/-- Throughput expression of HttpDownload::progress exactly as written in
the source: last_bytes_downloaded / elapsed-milliseconds * 1000, so the
integer division happens before the multiplication. -/
def bytes_per_second (last_bytes_downloaded : Nat) (elapsedMs : Nat) : Nat :=
  last_bytes_downloaded / elapsedMs * 1000

/-- Throughput formula as the specification words it: windowBytes * 1000 /
windowMillis, multiplication before the integer division. Stated only to
be compared against the source expression. -/
def bytesPerSecondSpec (windowBytes : Nat) (windowMillis : Nat) : Nat :=
  windowBytes * 1000 / windowMillis

/-- HttpDownload::progress streaming loop. Arguments: downloaded running
counter, window counter (last_bytes_downloaded), remaining stream events.
Returns the final outcome together with the list of Running updates the
loop handed to try_send (drops by a full buffer do not change the computed
values). Per the source: each chunk is written and both counters advance;
if the window clock exceeds HALF_SECOND a Running update with the
bytes_per_second expression is emitted and the window resets; then the
stop channel is polled, returning the counter on a stop message and a
ChannelDrop error on a closed channel; at end of stream a counter below
content_length yields StreamEndedBeforeCompletion, otherwise the counter. -/
def progress (content_length : Nat) (url : String) :
    Nat → Nat → List StreamEvent → Except DlError Nat × List UpdateType
  | downloaded, _window, [] =>
    if downloaded < content_length then
      (.error (.streamEndedBeforeCompletion downloaded), [])
    else
      (.ok downloaded, [])
  | _, _, .readErr msg :: _ => (.error (.request msg), [])
  | _, _, .writeErr msg :: _ => (.error (.io msg), [])
  | downloaded, window, .chunk n ms stop :: rest =>
    let d2 := downloaded + n
    let w2 := window + n
    if 500 < ms then
      match stop with
      | .fired => (.ok d2, [.running d2 (bytes_per_second w2 ms)])
      | .closed => (.error (.channelDrop d2 url), [.running d2 (bytes_per_second w2 ms)])
      | .empty =>
        let r := progress content_length url d2 0 rest
        (r.1, .running d2 (bytes_per_second w2 ms) :: r.2)
    else
      match stop with
      | .fired => (.ok d2, [])
      | .closed => (.error (.channelDrop d2 url), [])
      | .empty => progress content_length url d2 w2 rest

/-- Window bookkeeping of the streaming loop, separated from the
throughput expression: for every emission point of progress, the running
counter at that point, the window byte count accumulated since the last
emission (or loop entry) and the window clock value at the emission. -/
def windowTrace : Nat → Nat → List StreamEvent → List (Nat × Nat × Nat)
  | _, _, [] => []
  | _, _, .readErr _ :: _ => []
  | _, _, .writeErr _ :: _ => []
  | downloaded, window, .chunk n ms stop :: rest =>
    let d2 := downloaded + n
    let w2 := window + n
    if 500 < ms then
      match stop with
      | .fired => [(d2, w2, ms)]
      | .closed => [(d2, w2, ms)]
      | .empty => (d2, w2, ms) :: windowTrace d2 0 rest
    else
      match stop with
      | .fired => []
      | .closed => []
      | .empty => windowTrace d2 w2 rest

/-- Test for a chunk event that carries no stop signal and no error: the
stream simply delivers data. -/
def StreamEvent.isQuietChunk : StreamEvent → Bool
  | .chunk _ _ .empty => true
  | _ => false

/-- Byte count written by one stream event (0 for the error events). -/
def StreamEvent.chunkBytes : StreamEvent → Nat
  | .chunk n _ _ => n
  | _ => 0

/-- Action trace of the set-up phases of HttpDownload::start and
HttpDownload::resume, before and including entry into the streaming loop:
the file-size query, the plain GET request, file creation with truncation,
opening the file in append mode, the ranged GET request, and entry into
the streaming loop with its initial counter. -/
inductive Action
  | statFile
  | sendGet
  | createFile
  | openAppend
  | sendGetRange (offset : Nat)
  | streamFrom (initialCounter : Nat)
deriving DecidableEq, Repr

/-- Set-up phase of HttpDownload::start: issue the GET request, create
(truncate) the target file, enter the streaming loop with counter 0.
The returned value is the loop entry counter; transport and file-creation
failures, which the source propagates, are outside the claims settled here
and are not modelled. -/
def HttpDownload.start (_d : HttpDownload) (_fs : FileSystem) :
    Except DlError Nat × List Action :=
  (.ok 0, [.sendGet, .createFile, .streamFrom 0])

/-- Rendered io error for opening a file that does not exist, as the
append-mode OpenOptions open reports it. -/
def openAppendAbsentMsg : String := "No such file or directory (os error 2)"

/-- Set-up phase of HttpDownload::resume, following the source order:
query the file size on disk; if it equals content_length fail with
DownloadComplete; if byte ranges are unsupported delegate to start; else
open the file in write-append mode, issue the GET with a Range header at
the on-disk offset and enter the streaming loop with that counter. The
OpenOptions carry write and append but no create flag, so the open fails
with an Io error when the file is absent, before any range request is
sent; file presence is identified with readability of its metadata.
Transport failures of the range request itself are outside the claims
settled here and are not modelled. -/
def HttpDownload.resume (d : HttpDownload) (fs : FileSystem) :
    Except DlError Nat × List Action :=
  let bytes_on_disk := file_size fs d.file_path
  if bytes_on_disk = d.content_length then
    (.error (.downloadComplete bytes_on_disk), [.statFile])
  else if d.supports_byte_ranges = false then
    let r := d.start fs
    (r.1, .statFile :: r.2)
  else
    match fs.metadata d.file_path with
    | .error _ =>
      (.error (.io openAppendAbsentMsg), [.statFile, .openAppend])
    | .ok _ =>
      (.ok bytes_on_disk,
        [.statFile, .openAppend, .sendGetRange bytes_on_disk, .streamFrom bytes_on_disk])

/-- Outcome of the select race inside the task spawned by
DownloaderItem::run: either the notifier fired first (and the task then
re-reads the on-disk size through get_bytes_on_disk against the filesystem
as it is at that moment), or the start/resume future finished with its
result. -/
inductive RaceOutcome
  | cancelled (fsAtExit : FileSystem)
  | finished (result : Except DlError Nat)

/-- Send discipline used for one update: try_send (dropped when the buffer
is full) or an awaited send (blocks until the buffer has room). -/
inductive SendMode
  | trySendMode
  | blockingMode
deriving DecidableEq, Repr

/-- DownloadUpdate as emitted by the task in item.rs: an id paired with a
State value. -/
structure StateUpdate where
  id : Uuid
  state : State
deriving DecidableEq, Repr

/-- Terminal update constructed by the select race in DownloaderItem::run:
cancellation yields Paused with the freshly re-read on-disk size, a
successful download result yields Complete, and an error yields Error with
the rendered reason. -/
def itemTerminalUpdate (d : HttpDownload) : RaceOutcome → StateUpdate
  | .cancelled fsAtExit =>
      { id := d.id, state := .paused (d.get_bytes_on_disk fsAtExit) }
  | .finished (.ok _) => { id := d.id, state := .complete }
  | .finished (.error e) => { id := d.id, state := .error e.render }

/-- Channel traffic of one task spawned by DownloaderItem::run: the
Running updates the racing download future handed to try_send while it was
alive, followed by the single terminal update the task awaits on the
channel after the select resolves. -/
def itemRunEmissions (d : HttpDownload) (runningUpdates : List (Nat × Nat))
    (outcome : RaceOutcome) : List (StateUpdate × SendMode) :=
  (runningUpdates.map fun p =>
    ({ id := d.id, state := .running p.1 p.2 }, SendMode.trySendMode))
    ++ [(itemTerminalUpdate d outcome, SendMode.blockingMode)]

/-- Test for an emission that is terminal in the claim sense: its state is
not a Running progress report. -/
def StateUpdate.isTerminal (u : StateUpdate) : Bool :=
  match u.state with
  | .running _ _ => false
  | _ => true

/-- State of a tokio RwLock as exercised by this codebase: the count of
read guards alive and whether a write guard is held. No code path of the
repository ever takes a write guard on a download record, so writer
queueing never arises. -/
structure RwLockState where
  readers : Nat
  writerHeld : Bool
deriving DecidableEq, Repr

/-- Success of RwLock::try_read: shared access is granted immediately
unless a writer holds the lock (tokio also defers to queued writers, but
no writer ever appears on a download record lock). -/
def RwLockState.tryReadOk (l : RwLockState) : Bool :=
  !l.writerHeld

/-- DownloaderItem of manager/item.rs: the shared download record behind
its RwLock, the optional stop notifier, and the metadata snapshot used by
Inner::get_metadata and DownloadManager::delete. tasks counts the spawned
download tasks currently alive, to express how many concurrent tasks a
command sequence has produced.
Modelled from the spec: the metadata field read by inner.rs and
manager/mod.rs is absent from the DownloaderItem revisions under src; per
the specification Metadata is the immutable projection of the Download, so
construction stores the From projection of the wrapped record. -/
structure DownloaderItem where
  download : HttpDownload
  lock : RwLockState
  notifier : Bool
  tasks : Nat
  metadata : DownloadMetadata
deriving DecidableEq, Repr

/-- DownloaderItem::new: wraps a download with a fresh unlocked lock and
no notifier, storing its metadata projection. -/
def DownloaderItem.new (d : HttpDownload) : DownloaderItem :=
  { download := d
    lock := { readers := 0, writerHeld := false }
    notifier := false
    tasks := 0
    metadata := d.metadata }

/-- DownloaderItem::is_locked: try_read on the download record, locked
when the attempt fails. -/
def DownloaderItem.is_locked (it : DownloaderItem) : Bool :=
  !it.lock.tryReadOk

/-- DownloaderItem::run: installs a fresh notifier and spawns the download
task. The state is taken at the point where the spawned task has acquired
its read guard on the download record (which the runtime grants promptly,
since only read guards are ever taken). The resume flag selects the
future the task races and does not alter the tracked state. -/
def DownloaderItem.run (it : DownloaderItem) (_resume : Bool) : DownloaderItem :=
  { it with
    notifier := true
    tasks := it.tasks + 1
    lock := { it.lock with readers := it.lock.readers + 1 } }

/-- DownloaderItem::stop: fires and takes the notifier, failing when no
notifier is present. The task itself winds down later; the counts here
keep the task alive until its own exit, which stop does not await. -/
def DownloaderItem.stop (it : DownloaderItem) : Except Unit DownloaderItem :=
  if it.notifier then .ok { it with notifier := false }
  else .error ()

/-- Association list primitives standing in for the HashMap registry and
state maps (lookup, insert-or-overwrite, remove). -/
def lookupA {α : Type} : List (Uuid × α) → Uuid → Option α
  | [], _ => none
  | (k, v) :: rest, id => if k = id then some v else lookupA rest id

/-- Insert-or-overwrite for the association map. -/
def insertA {α : Type} : List (Uuid × α) → Uuid → α → List (Uuid × α)
  | [], id, v => [(id, v)]
  | (k, w) :: rest, id, v =>
    if k = id then (k, v) :: rest else (k, w) :: insertA rest id v

/-- Removal for the association map. -/
def eraseA {α : Type} : List (Uuid × α) → Uuid → List (Uuid × α)
  | [], _ => []
  | (k, w) :: rest, id => if k = id then rest else (k, w) :: eraseA rest id

/-- Errors surfaced by the manager registry operations: a missing id, a
locked (running) item on the run path, and stop on an idle item. -/
inductive MgrError
  | notFound (id : Uuid)
  | alreadyLocked
  | notRunning
deriving DecidableEq, Repr

/-- Inner registry of manager/inner.rs: the map id to DownloaderItem. The
update channel sender carries no state relevant to the claims. -/
structure Inner where
  items : List (Uuid × DownloaderItem)
deriving DecidableEq, Repr

/-- Inner::add: wrap the download in a fresh item, insert it under its own
id and return the id. -/
def Inner.add (inner : Inner) (d : HttpDownload) : Uuid × Inner :=
  (d.id, { items := insertA inner.items d.id (DownloaderItem.new d) })

/-- Inner::get_metadata: clone the metadata of the item under the id, or
fail when the id is absent. -/
def Inner.get_metadata (inner : Inner) (id : Uuid) : Except MgrError DownloadMetadata :=
  match lookupA inner.items id with
  | some it => .ok it.metadata
  | none => .error (.notFound id)

/-- Inner::run (the start and resume path of the manager): a missing id is
NotFound; an item whose is_locked check fires is rejected as already
locked; otherwise the item spawns its task. -/
def Inner.run (inner : Inner) (id : Uuid) (resume : Bool) : Except MgrError Inner :=
  match lookupA inner.items id with
  | none => .error (.notFound id)
  | some it =>
    if it.is_locked then .error .alreadyLocked
    else .ok { items := insertA inner.items id (it.run resume) }

/-- Inner::stop: fire the notifier of the item under the id. -/
def Inner.stop (inner : Inner) (id : Uuid) : Except MgrError Inner :=
  match lookupA inner.items id with
  | none => .error (.notFound id)
  | some it =>
    match it.stop with
    | .ok it2 => .ok { items := insertA inner.items id it2 }
    | .error _ => .error .notRunning

/-- Inner::remove: take the item out of the map. -/
def Inner.remove (inner : Inner) (id : Uuid) : Option DownloaderItem × Inner :=
  (lookupA inner.items id, { items := eraseA inner.items id })

/-- Inner::start_all: run every item whose is_locked check does not fire,
in resume mode. -/
def Inner.start_all (inner : Inner) : Inner :=
  { items := inner.items.map fun p =>
      if p.2.is_locked then p else (p.1, p.2.run true) }

/-- Inner::stop_all: fire every notifier, ignoring stop failures. -/
def Inner.stop_all (inner : Inner) : Inner :=
  { items := inner.items.map fun p =>
      match p.2.stop with
      | .ok it2 => (p.1, it2)
      | .error _ => p }

/-- DownloadManager::delete of manager/mod.rs: a stop failure is surfaced
only when the id is missing (NotRunning is suppressed); then the item is
removed from the registry and, when requested, the file unlink is
attempted with its failures logged and discarded (the unlink does not
touch any state tracked here). -/
def DownloadManager.delete (inner : Inner) (id : Uuid) (_deleteFile : Bool) :
    Except MgrError Inner :=
  match inner.stop id with
  | .error (.notFound i) => .error (.notFound i)
  | _ => .ok (inner.remove id).2

/-- State projection of observer.rs: the From implementation turning a
consumed DownloadUpdate into the proto State stored in the cache, with the
error arm rendered to its string. -/
def State.ofUpdate (u : DownloadUpdate) : State :=
  match u.update_type with
  | .complete => .complete
  | .paused bytes => .paused bytes
  | .running bd bps => .running bd bps
  | .error e => .error e.render

/-- DownloadUpdatePublisher state: the id-to-State cache and the last
flush timestamp in milliseconds. -/
structure PublisherState where
  cache : List (Uuid × State)
  last_flush : Nat
deriving DecidableEq, Repr

/-- DownloadUpdatePublisher::consume at clock value now: flush is elapsed
time strictly above HALF_SECOND and the update not being Running; the
cache always takes the new state; on flush the cache is drained into the
dispatched batch. The source never writes last_flush after construction,
so it is left unchanged on both paths. Returns the new state and the batch
handed to the spawned delivery task, if any. -/
def DownloadUpdatePublisher.consume (s : PublisherState) (now : Nat)
    (u : DownloadUpdate) : PublisherState × Option (List (Uuid × State)) :=
  let flush := decide (500 < now - s.last_flush) && !u.update_type.isRunning
  let cache2 := insertA s.cache u.id (State.ofUpdate u)
  if flush then
    ({ cache := [], last_flush := s.last_flush }, some cache2)
  else
    ({ cache := cache2, last_flush := s.last_flush }, none)

/-- DownloadObserver::track: insert the id with its initial state. -/
def DownloadObserver.track (m : List (Uuid × State)) (id : Uuid) (st : State) :
    List (Uuid × State) :=
  insertA m id st

/-- DownloadObserver subscriber callback: for each pair of the batch in
order, an id present in the map is overwritten and an absent id is dropped
with a warning, never inserted. -/
def DownloadObserver.applyBatch : List (Uuid × State) → List (Uuid × State) →
    List (Uuid × State)
  | m, [] => m
  | m, u :: rest =>
    applyBatch (if (lookupA m u.1).isSome then insertA m u.1 u.2 else m) rest

/-- DownloadState message returned by DownloadObserver::get_state: the
requested uuid bytes with the optional state found in the map. -/
structure DownloadStateMsg where
  uuid : List Nat
  state : Option State
deriving DecidableEq, Repr

/-- DownloadObserver::get_state. -/
def DownloadObserver.get_state (m : List (Uuid × State)) (id : Uuid) :
    DownloadStateMsg :=
  { uuid := id.bytes, state := lookupA m id }

/-- DownloadObserver::get_state_all: snapshot of every tracked pair. -/
def DownloadObserver.get_state_all (m : List (Uuid × State)) :
    List DownloadStateMsg :=
  m.map fun p => { uuid := p.1.bytes, state := some p.2 }

/-- Combined state of the manager registry and the observer map, the two
stores a control-surface command sequence touches. -/
structure SystemState where
  manager : Inner
  observer : List (Uuid × State)
deriving DecidableEq, Repr

/-- Control-surface command vocabulary acting on the combined state:
manager commands (add, start, resume, stop, delete, start_all, stop_all),
observer tracking at creation, and delivery of a publisher batch to the
observer subscriber callback. -/
inductive Cmd
  | add (d : HttpDownload)
  | startCmd (id : Uuid)
  | resumeCmd (id : Uuid)
  | stopCmd (id : Uuid)
  | deleteCmd (id : Uuid) (deleteFile : Bool)
  | startAll
  | stopAll
  | track (id : Uuid) (st : State)
  | deliver (batch : List (Uuid × State))
deriving Repr

/-- Effect of one command on the combined state, following the route
handlers in server/src/routes/mod.rs: manager commands go through the
DownloadManager and leave the observer untouched (a failed command leaves
the registry as it was); track and deliver are the only writers of the
observer map. -/
def step (s : SystemState) : Cmd → SystemState
  | .add d => { s with manager := (s.manager.add d).2 }
  | .startCmd id =>
    { s with manager :=
        match s.manager.run id false with
        | .ok i => i
        | .error _ => s.manager }
  | .resumeCmd id =>
    { s with manager :=
        match s.manager.run id true with
        | .ok i => i
        | .error _ => s.manager }
  | .stopCmd id =>
    { s with manager :=
        match s.manager.stop id with
        | .ok i => i
        | .error _ => s.manager }
  | .deleteCmd id deleteFile =>
    { s with manager :=
        match DownloadManager.delete s.manager id deleteFile with
        | .ok i => i
        | .error _ => s.manager }
  | .startAll => { s with manager := s.manager.start_all }
  | .stopAll => { s with manager := s.manager.stop_all }
  | .track id st => { s with observer := DownloadObserver.track s.observer id st }
  | .deliver batch => { s with observer := DownloadObserver.applyBatch s.observer batch }

/-- Iterated command execution. -/
def steps (s : SystemState) : List Cmd → SystemState
  | [] => s
  | c :: cs => steps (step s c) cs

/-- Decidable check that a get_state_all snapshot carries a present state
for the given id. -/
def containsStateFor (msgs : List DownloadStateMsg) (id : Uuid) : Bool :=
  msgs.any fun msg => decide (msg.uuid = id.bytes) && msg.state.isSome

/-- Concrete identifier used by the evaluated scenarios. -/
def uidA : Uuid := { bytes := [1] }

/-- Second concrete identifier used by the evaluated scenarios. -/
def uidB : Uuid := { bytes := [2] }

/-- Concrete download record used by the evaluated scenarios. -/
def dlA : HttpDownload :=
  { url := "http://example.com/a.bin"
    id := uidA
    file_path := "a.bin"
    content_length := 100
    supports_byte_ranges := true }

/-- Registry holding dlA idle, for the double-start scenario of C1. -/
def c1Inner0 : Inner := { items := [(uidA, DownloaderItem.new dlA)] }

/-- Registry after the first accepted start on dlA: its task is alive and
holds its read guard. -/
def c1Inner1 : Inner :=
  match c1Inner0.run uidA false with
  | .ok i => i
  | .error _ => c1Inner0

/-- Registry after a second start issued while the first task is alive. -/
def c1Inner2 : Inner :=
  match c1Inner1.run uidA false with
  | .ok i => i
  | .error _ => c1Inner1

/-- Combined state tracking dlA in both stores, for the deletion scenarios
of C3. -/
def c3Sys0 : SystemState :=
  { manager := { items := [(uidA, DownloaderItem.new dlA)] }
    observer := [(uidA, State.paused 0)] }

/-- Batch carrying a late update for dlA, as left in flight by the stop
that delete performs. -/
def c3Batch : List (Uuid × State) := [(uidA, State.paused 5)]

/-- Non-running update arriving inside the flush window, for C4. -/
def c4Update : DownloadUpdate := { id := uidA, update_type := .paused 5 }

/-- Publisher freshly constructed at clock 0, for C4. -/
def c4State0 : PublisherState := { cache := [], last_flush := 0 }

/-- Filesystem on which every path reports 100 bytes on disk. -/
def fsComplete : FileSystem := { metadata := fun _ => Except.ok 100 }

/-- Filesystem on which every metadata query fails (file absent). -/
def fsAbsent : FileSystem := { metadata := fun _ => Except.error () }

/-- Combined state tracking uidB only in the observer, for the C9
persistence scenario. -/
def c9Sys0 : SystemState :=
  { manager := { items := [] }
    observer := [(uidB, State.paused 0)] }

/-- Command sequence deleting uidB and then delivering a batch for it. -/
def c9Cmds : List Cmd :=
  [Cmd.deleteCmd uidB true, Cmd.deliver [(uidB, State.complete)]]

/- Helper lemmas on the association map and the observer callback. -/

/-- Lookup after insert-or-overwrite: the inserted key maps to the new
value and every other key is unchanged. -/
theorem lookupA_insertA {α : Type} (l : List (Uuid × α)) (k j : Uuid) (v : α) :
    lookupA (insertA l k v) j = if k = j then some v else lookupA l j := by
  induction l with
  | nil =>
    by_cases h : k = j <;> simp [insertA, lookupA, h]
  | cons p rest ih =>
    obtain ⟨a, w⟩ := p
    by_cases hak : a = k
    · subst hak
      by_cases haj : a = j <;> simp [insertA, lookupA, haj]
    · by_cases haj : a = j
      · subst haj
        simp [insertA, lookupA, hak, Ne.symm hak]
      · simp [insertA, lookupA, hak, haj, ih]

/-- Batch application keeps every key that was present. -/
theorem lookupA_applyBatch_isSome (batch : List (Uuid × State))
    (m : List (Uuid × State)) (j : Uuid)
    (h : (lookupA m j).isSome = true) :
    (lookupA (DownloadObserver.applyBatch m batch) j).isSome = true := by
  induction batch generalizing m with
  | nil => simpa [DownloadObserver.applyBatch] using h
  | cons u rest ih =>
    simp only [DownloadObserver.applyBatch]
    apply ih
    by_cases hc : (lookupA m u.1).isSome = true
    · by_cases hj : u.1 = j <;> simp [hc, lookupA_insertA, hj, h]
    · simp [hc, h]

/-- Batch application never creates a key: an id absent from the map stays
absent. -/
theorem lookupA_applyBatch_none (batch : List (Uuid × State))
    (m : List (Uuid × State)) (j : Uuid)
    (h : lookupA m j = none) :
    lookupA (DownloadObserver.applyBatch m batch) j = none := by
  induction batch generalizing m with
  | nil => simpa [DownloadObserver.applyBatch] using h
  | cons u rest ih =>
    simp only [DownloadObserver.applyBatch]
    apply ih
    by_cases hc : (lookupA m u.1).isSome = true
    · have hne : u.1 ≠ j := by
        intro e
        rw [e, h] at hc
        simp at hc
      simp [hc, lookupA_insertA, hne, h]
    · simp [hc, h]

/-- A successful lookup exposes a member of the association list. -/
theorem mem_of_lookupA {α : Type} (l : List (Uuid × α)) (id : Uuid) (v : α)
    (h : lookupA l id = some v) : (id, v) ∈ l := by
  induction l with
  | nil => simp [lookupA] at h
  | cons p rest ih =>
    obtain ⟨a, w⟩ := p
    by_cases e : a = id
    · subst e
      simp [lookupA] at h
      subst h
      exact List.mem_cons_self _ _
    · simp [lookupA, e] at h
      exact List.mem_cons_of_mem _ (ih h)

/-- A present key makes the get_state_all snapshot carry a state for it. -/
theorem containsStateFor_of_lookupA (m : List (Uuid × State)) (id : Uuid)
    (h : (lookupA m id).isSome = true) :
    containsStateFor (DownloadObserver.get_state_all m) id = true := by
  obtain ⟨v, hv⟩ := Option.isSome_iff_exists.mp h
  refine List.any_eq_true.mpr ?_
  refine ⟨{ uuid := id.bytes, state := some v }, ?_, by simp⟩
  exact List.mem_map.mpr ⟨(id, v), mem_of_lookupA m id v hv, rfl⟩

/-- Every command preserves presence of an id in the observer map: manager
commands do not touch the observer, track only inserts, and batch delivery
only overwrites present ids. -/
theorem step_preserves_observer_isSome (s : SystemState) (c : Cmd) (id : Uuid)
    (h : (lookupA s.observer id).isSome = true) :
    (lookupA (step s c).observer id).isSome = true := by
  cases c with
  | add d => simpa [step] using h
  | startCmd i => simpa [step] using h
  | resumeCmd i => simpa [step] using h
  | stopCmd i => simpa [step] using h
  | deleteCmd i df => simpa [step] using h
  | startAll => simpa [step] using h
  | stopAll => simpa [step] using h
  | track tid st =>
    by_cases e : tid = id <;>
      simp [step, DownloadObserver.track, lookupA_insertA, e, h]
  | deliver batch =>
    simpa [step] using lookupA_applyBatch_isSome batch s.observer id h

/-- Command sequences preserve presence of an id in the observer map. -/
theorem steps_preserves_observer_isSome (cs : List Cmd) (s : SystemState)
    (id : Uuid) (h : (lookupA s.observer id).isSome = true) :
    (lookupA (steps s cs).observer id).isSome = true := by
  induction cs generalizing s with
  | nil => simpa [steps] using h
  | cons c rest ih =>
    simp only [steps]
    exact ih _ (step_preserves_observer_isSome s c id h)

/-- Claim C1. The claim states that a start or resume on an id whose item
has a running task is rejected with AlreadyRunning and no second task is
spawned. The code contradicts it: the spawned task holds only a read guard
on the download record, RwLock try_read succeeds alongside read guards, so
is_locked reports false and Inner::run accepts the command and spawns a
second concurrent task. Evaluated here: after an accepted start the item
has one live task and is_locked is false, and a second start is accepted,
leaving two live tasks on the same id. -/
theorem run_spawns_second_task_while_running :
    c1Inner0.run uidA false = .ok c1Inner1
    ∧ (lookupA c1Inner1.items uidA).map DownloaderItem.tasks = some 1
    ∧ (lookupA c1Inner1.items uidA).map DownloaderItem.is_locked = some false
    ∧ c1Inner1.run uidA false = .ok c1Inner2
    ∧ (lookupA c1Inner2.items uidA).map DownloaderItem.tasks = some 2 := by
  exact ⟨rfl, rfl, rfl, rfl, rfl⟩

/-- Claim C2: the task spawned by DownloaderItem::run emits exactly one
terminal update on the shared channel, with Paused carrying the on-disk
size re-read at the moment cancellation wins, Complete on a successful
download result, Error with the rendered reason on a failed one, and that
single terminal emission uses the blocking send. -/
theorem item_task_emits_single_terminal (d : HttpDownload)
    (runningUpdates : List (Nat × Nat)) (o : RaceOutcome) :
    (itemRunEmissions d runningUpdates o).filter (fun e => e.1.isTerminal) =
      [({ id := d.id
          state :=
            match o with
            | .cancelled fsAtExit => State.paused (d.get_bytes_on_disk fsAtExit)
            | .finished (.ok _) => State.complete
            | .finished (.error e) => State.error e.render },
        SendMode.blockingMode)] := by
  have hrun : (runningUpdates.map fun p =>
      (({ id := d.id, state := .running p.1 p.2 } : StateUpdate),
        SendMode.trySendMode)).filter (fun e => e.1.isTerminal) = [] := by
    induction runningUpdates with
    | nil => rfl
    | cons p rest ih => simpa [List.filter, StateUpdate.isTerminal] using ih
  have hterm : (itemTerminalUpdate d o).isTerminal = true := by
    cases o with
    | cancelled fsAtExit => rfl
    | finished r => cases r <;> rfl
  have key : (itemRunEmissions d runningUpdates o).filter (fun e => e.1.isTerminal)
      = [(itemTerminalUpdate d o, SendMode.blockingMode)] := by
    simp only [itemRunEmissions]
    rw [List.filter_append, hrun]
    simp [List.filter, hterm]
  rw [key]
  cases o with
  | cancelled fsAtExit => rfl
  | finished r => cases r <;> rfl

/-- Counterexample to claim C3: delete(uidA) completes successfully, yet a
batch delivered afterwards still installs a fresh state for uidA, because
deletion removes the id from the manager registry only and the observer
map still tracks it. -/
theorem delete_then_batch_installs_state :
    DownloadManager.delete c3Sys0.manager uidA true = .ok { items := [] }
    ∧ lookupA (steps c3Sys0 [Cmd.deleteCmd uidA true, Cmd.deliver c3Batch]).observer
        uidA = some (State.paused 5) := by
  exact ⟨rfl, rfl⟩

/-- Claim C3 as amended: the observer batch callback drops updates only
for ids absent from its map and never creates a key, while delete leaves
the observer map untouched; hence a batch delivered after delete(id) can
still install state for a previously tracked id, and only ids never
tracked (or otherwise absent) are guarded against. -/
theorem observer_batch_drops_only_untracked (m batch : List (Uuid × State))
    (id : Uuid) (s : SystemState) (df : Bool)
    (h : lookupA m id = none) :
    lookupA (DownloadObserver.applyBatch m batch) id = none
    ∧ (step s (Cmd.deleteCmd id df)).observer = s.observer := by
  exact ⟨lookupA_applyBatch_none batch m id h, rfl⟩

/-- Witness for the amended claim C3 at a concrete input: uidB was never
tracked, so the batch for uidA leaves it absent, and deleting uidB leaves
the concrete observer map unchanged. -/
theorem observer_batch_drops_only_untracked_witness :
    lookupA (DownloadObserver.applyBatch [] c3Batch) uidB = none
    ∧ (step c3Sys0 (Cmd.deleteCmd uidB true)).observer = c3Sys0.observer :=
  observer_batch_drops_only_untracked [] c3Batch uidB c3Sys0 true (by decide)

/-- Counterexample to claim C4: a Paused update consumed 400 ms after the
last flush timestamp is cached but not dispatched, although its state is
not Running; a non-running update does not by itself trigger an immediate
flush. -/
theorem consume_nonrunning_within_window_no_flush :
    c4Update.update_type.isRunning = false
    ∧ (DownloadUpdatePublisher.consume c4State0 400 c4Update).2 = none := by
  decide

/-- Claim C4 as amended: consume drains the cache into a dispatched batch
exactly when the update is not Running and strictly more than 500 ms have
elapsed since the last_flush timestamp (never written after construction);
otherwise, and in particular for every Running update, it only caches the
state and dispatches nothing. -/
theorem consume_flush_characterization (s : PublisherState) (now : Nat)
    (u : DownloadUpdate) :
    DownloadUpdatePublisher.consume s now u =
      if 500 < now - s.last_flush ∧ u.update_type.isRunning = false then
        ({ cache := [], last_flush := s.last_flush },
          some (insertA s.cache u.id (State.ofUpdate u)))
      else
        ({ cache := insertA s.cache u.id (State.ofUpdate u),
           last_flush := s.last_flush }, none) := by
  by_cases h1 : 500 < now - s.last_flush <;>
    by_cases h2 : u.update_type.isRunning = false <;>
      simp [DownloadUpdatePublisher.consume, h1, h2]

/-- Counterexample to claim C5: a chunk of 700 bytes with a 501 ms window
makes the loop emit bytes_per_second 1000 (the source divides before
multiplying), while the claimed formula windowBytes * 1000 / windowMillis
yields 1397. -/
theorem progress_bps_differs_from_claimed_formula :
    (progress 100000 "http://example.com/a.bin" 0 0
        [StreamEvent.chunk 700 501 StopSignal.empty]).2
      = [UpdateType.running 700 1000]
    ∧ bytesPerSecondSpec 700 501 = 1397
    ∧ (1000 : Nat) ≠ 1397 := by
  decide

/-- Claim C5 as amended: every Running update emitted by the streaming
loop reports bytes_per_second equal to windowBytes / windowMillis * 1000,
with the integer division performed before the multiplication, where the
window quantities are the bytes written since the last emission and the
elapsed window milliseconds as recorded by windowTrace. -/
theorem progress_running_updates_formula (content_length : Nat) (url : String)
    (evs : List StreamEvent) :
    ∀ downloaded window : Nat,
      (progress content_length url downloaded window evs).2 =
        (windowTrace downloaded window evs).map
          (fun t => UpdateType.running t.1 (t.2.1 / t.2.2 * 1000)) := by
  induction evs with
  | nil =>
    intro d w
    by_cases hd : d < content_length <;> simp [progress, windowTrace, hd]
  | cons e rest ih =>
    intro d w
    cases e with
    | readErr msg => simp [progress, windowTrace]
    | writeErr msg => simp [progress, windowTrace]
    | chunk n ms stop =>
      by_cases hms : 500 < ms
      · cases stop <;>
          simp [progress, windowTrace, hms, bytes_per_second, ih]
      · cases stop <;>
          simp [progress, windowTrace, hms, ih]

/-- Claim C6: when the on-disk size already equals content_length, resume
fails synchronously with the DownloadComplete error, and the only action
taken before the error is the file-size query: no file open, truncation,
write or range request happens. -/
theorem resume_already_complete (d : HttpDownload) (fs : FileSystem)
    (h : file_size fs d.file_path = d.content_length) :
    d.resume fs = (.error (.downloadComplete d.content_length), [Action.statFile]) := by
  simp [HttpDownload.resume, h]

/-- Witness for claim C6: the concrete download of length 100 over the
filesystem reporting 100 bytes on disk. -/
theorem resume_already_complete_witness :
    dlA.resume fsComplete =
      (.error (.downloadComplete 100), [Action.statFile]) :=
  resume_already_complete dlA fsComplete rfl

/-- Claim C7: when the stream runs dry without any stop signal or error,
the loop returns StreamEndedBeforeCompletion with the final counter
exactly when that counter is strictly below content_length, and the
counter as a success otherwise. -/
theorem progress_stream_end (content_length : Nat) (url : String)
    (evs : List StreamEvent) (downloaded window : Nat)
    (h : ∀ e ∈ evs, e.isQuietChunk = true) :
    (progress content_length url downloaded window evs).1 =
      if downloaded + (evs.map StreamEvent.chunkBytes).sum < content_length then
        .error (.streamEndedBeforeCompletion
          (downloaded + (evs.map StreamEvent.chunkBytes).sum))
      else
        .ok (downloaded + (evs.map StreamEvent.chunkBytes).sum) := by
  induction evs generalizing downloaded window with
  | nil =>
    by_cases hd : downloaded < content_length <;> simp [progress, hd]
  | cons e rest ih =>
    have hhead := h e (List.mem_cons_self _ _)
    have hrest : ∀ x ∈ rest, x.isQuietChunk = true :=
      fun x hx => h x (List.mem_cons_of_mem _ hx)
    cases e with
    | readErr msg => simp [StreamEvent.isQuietChunk] at hhead
    | writeErr msg => simp [StreamEvent.isQuietChunk] at hhead
    | chunk n ms stop =>
      cases stop with
      | fired => simp [StreamEvent.isQuietChunk] at hhead
      | closed => simp [StreamEvent.isQuietChunk] at hhead
      | empty =>
        by_cases hms : 500 < ms <;>
          simp [progress, hms, StreamEvent.chunkBytes, ih _ _ hrest,
            Nat.add_assoc]

/-- Witness for claim C7 at a concrete truncated stream: a single quiet
chunk of 3 bytes against a content length of 10 ends in the truncation
error carrying 3. -/
theorem progress_stream_end_witness :
    (progress 10 "http://example.com/a.bin" 0 0
        [StreamEvent.chunk 3 0 StopSignal.empty]).1 =
      .error (.streamEndedBeforeCompletion 3) := by
  have h := progress_stream_end 10 "http://example.com/a.bin"
    [StreamEvent.chunk 3 0 StopSignal.empty] 0 0 (by decide)
  simpa using h

/-- Claim C8: adding a download and querying its metadata under the
returned id round-trips, and the four Metadata fields are exactly the
projection of the added Download: the uuid bytes of its id, its url, its
rendered file path and its content_length. -/
theorem add_get_metadata_roundtrip (inner : Inner) (d : HttpDownload) :
    (inner.add d).2.get_metadata (inner.add d).1 = .ok d.metadata
    ∧ d.metadata.uuid = d.id.bytes
    ∧ d.metadata.url = d.url
    ∧ d.metadata.file_path = d.file_path
    ∧ d.metadata.content_length = d.content_length := by
  refine ⟨?_, rfl, rfl, rfl, rfl⟩
  simp [Inner.add, Inner.get_metadata, lookupA_insertA, DownloaderItem.new]

/-- Claim C9: an id present in the observer map stays present across any
command sequence, including manager deletion of that download, and both
get_state and the get_state_all snapshot keep reporting a state for it. -/
theorem observer_ids_persist (s : SystemState) (cs : List Cmd) (id : Uuid)
    (h : (lookupA s.observer id).isSome = true) :
    (DownloadObserver.get_state (steps s cs).observer id).state.isSome = true
    ∧ containsStateFor (DownloadObserver.get_state_all (steps s cs).observer) id
        = true := by
  have hs := steps_preserves_observer_isSome cs s id h
  exact ⟨by simpa [DownloadObserver.get_state] using hs,
    containsStateFor_of_lookupA _ id hs⟩

/-- Witness for claim C9: uidB stays reported by get_state and
get_state_all after being deleted from the manager and receiving a late
batch. -/
theorem observer_ids_persist_witness :
    (DownloadObserver.get_state (steps c9Sys0 c9Cmds).observer uidB).state.isSome
        = true
    ∧ containsStateFor (DownloadObserver.get_state_all (steps c9Sys0 c9Cmds).observer)
        uidB = true :=
  observer_ids_persist c9Sys0 c9Cmds uidB (by decide)

/-- Claim C10: file_size is total and returns 0 whenever the metadata
query fails, and get_bytes_on_disk then reports 0; consequently resume on
a download with an absent file and a positive content length treats the
on-disk size as 0 and passes the size query without failing there: the
DownloadComplete check sees 0, does not fire, and resume proceeds to the
next step, which is the append-mode open attempt when byte ranges are
supported (that open then fails with an Io error, the file being absent,
before any range request) and the fallback start from counter 0
otherwise. -/
theorem file_size_absent_is_zero (d : HttpDownload) (fs : FileSystem)
    (h : fs.metadata d.file_path = .error ())
    (hcl : 0 < d.content_length) :
    file_size fs d.file_path = 0
    ∧ d.get_bytes_on_disk fs = 0
    ∧ d.resume fs =
        (if d.supports_byte_ranges = true then
          (.error (.io openAppendAbsentMsg), [Action.statFile, Action.openAppend])
        else
          (.ok 0, [Action.statFile, Action.sendGet, Action.createFile,
            Action.streamFrom 0])) := by
  have h0 : file_size fs d.file_path = 0 := by simp [file_size, h]
  refine ⟨h0, by simpa [HttpDownload.get_bytes_on_disk] using h0, ?_⟩
  by_cases hbr : d.supports_byte_ranges = true
  · simp [HttpDownload.resume, h0, hbr, hcl.ne, h]
  · simp [HttpDownload.resume, HttpDownload.start, h0, hbr, hcl.ne]

/-- Witness for claim C10: the concrete download over the filesystem on
which every metadata query fails; it supports byte ranges, so resume
reaches the append-mode open and fails there, after the size query. -/
theorem file_size_absent_is_zero_witness :
    file_size fsAbsent dlA.file_path = 0
    ∧ dlA.get_bytes_on_disk fsAbsent = 0
    ∧ dlA.resume fsAbsent =
        (if dlA.supports_byte_ranges = true then
          (.error (.io openAppendAbsentMsg), [Action.statFile, Action.openAppend])
        else
          (.ok 0, [Action.statFile, Action.sendGet, Action.createFile,
            Action.streamFrom 0])) :=
  file_size_absent_is_zero dlA fsAbsent rfl (by decide)

end Ludownloader
